import Mathlib

/-!
Verification of the TTL cache layer of `caching-lecture-13/caching_complete.py`.

The Python file layers cache helpers (`cache_get`, `cache_set`, `cache_delete`,
`cache_delete_pattern`) and FastAPI routes (cache-aside read, write-through
create/update, rate-limited search, delete-with-invalidation) over a Redis
client (`fakeredis` with `decode_responses=True`).

The embedding models the Redis keyspace as an association list from string
keys to entries `(value, expires_at)`.  Python/JSON values are modelled by the
inductive `Json`; Python `None` is `Json.null` (this identification matters:
`json.loads("null")` *is* `None`).  Time is an explicit `now : Nat` parameter
(seconds); an entry with `expires_at = some t` is live iff `now < t`, matching
Redis lazy expiry ("absent or `now >= expires_at` is a miss").  Calls that can
raise (`setex` with a non-positive TTL, `INCR` on a non-integer value, HTTP
404/429, a failing database commit) are modelled with an explicit error value
alongside the post-state, the post-state being the pre-state when the
exception propagates before any store mutation.
-/

namespace Caching

/-- JSON-serializable Python values (`json.dumps`/`json.loads` domain).
Numbers are modelled as integers; `Json.null` is Python `None`. -/
inductive Json where
  | null : Json
  | bool : Bool → Json
  | num : Int → Json
  | str : String → Json
  | arr : List Json → Json
  | obj : List (String × Json) → Json

/-- Python truthiness of a JSON value (`if value:`):
`None`, `False`, `0`, `""`, `[]`, `{}` are falsy. -/
def Json.truthy : Json → Bool
  | .null => false
  | .bool b => b
  | .num n => n != 0
  | .str s => s.length != 0
  | .arr xs => xs.length != 0
  | .obj fs => fs.length != 0

/-- Decimal rendering of a natural number, as Python `repr` does. -/
def natRepr (n : Nat) : String :=
  if h : n < 10 then String.singleton (Char.ofNat (48 + n))
  else natRepr (n / 10) ++ String.singleton (Char.ofNat (48 + n % 10))
decreasing_by exact Nat.div_lt_self (by omega) (by omega)

/-- Decimal rendering of an integer (Python `repr` of an `int`). -/
def intRepr (n : Int) : String :=
  if n < 0 then "-" ++ natRepr n.natAbs else natRepr n.toNat

mutual
/-- `json.dumps`: serialization of a JSON value.  Only its output on scalars
and its non-emptiness matter to the cache layer (string-escaping inside
`Json.str` is not modelled). -/
def dumps : Json → String
  | .null => "null"
  | .bool true => "true"
  | .bool false => "false"
  | .num n => intRepr n
  | .str s => "\"" ++ s ++ "\""
  | .arr xs => "[" ++ dumpsArr xs ++ "]"
  | .obj fs => "\x7b" ++ dumpsObj fs ++ "\x7d"

/-- Comma-separated serialization of a JSON array's elements. -/
def dumpsArr : List Json → String
  | [] => ""
  | [x] => dumps x
  | x :: y :: xs => dumps x ++ ", " ++ dumpsArr (y :: xs)

/-- Comma-separated serialization of a JSON object's fields. -/
def dumpsObj : List (String × Json) → String
  | [] => ""
  | [(k, v)] => "\"" ++ k ++ "\": " ++ dumps v
  | (k, v) :: f :: fs => "\"" ++ k ++ "\": " ++ dumps v ++ ", " ++ dumpsObj (f :: fs)
end

/-- One Redis entry: the stored value and its absolute expiry time
(`none` = no TTL, the key persists). -/
structure Entry where
  value : Json
  expiresAt : Option Nat

/-- The Redis keyspace: an association list from key to entry. -/
abbrev RedisState := List (String × Entry)

/-- Errors that can propagate out of the modelled operations. -/
inductive Err where
  | invalidTTL      : Err   -- redis ResponseError: invalid expire time (SETEX, ttl <= 0)
  | wrongType       : Err   -- redis ResponseError: value is not an integer (INCR)
  | notFound        : Err   -- HTTPException 404
  | writeError      : Err   -- database commit failure, propagated
  | tooManyRequests : Err   -- HTTPException 429
  deriving DecidableEq, Repr

/-- An entry is live at time `now` iff it has no expiry or expires later. -/
def entryLive (now : Nat) (e : Entry) : Bool :=
  match e.expiresAt with
  | none => true
  | some t => decide (now < t)

/-- First entry stored under `k` (Redis keys are unique; well-formed states
have no duplicate keys). -/
def lookupEntry (st : RedisState) (k : String) : Option Entry :=
  match st with
  | [] => none
  | (k', e) :: rest => if k' = k then some e else lookupEntry rest k

/-- Insert or replace the entry under `k`. -/
def insertEntry (st : RedisState) (k : String) (e : Entry) : RedisState :=
  match st with
  | [] => [(k, e)]
  | (k', e') :: rest => if k' = k then (k, e) :: rest else (k', e') :: insertEntry rest k e

/-- Physically remove every pair stored under `k`. -/
def eraseKey (st : RedisState) (k : String) : RedisState :=
  st.filter (fun p => p.1 != k)

/-- The entry under `k` if present and unexpired — the logical content of the
keyspace at `k` under lazy expiry. -/
def lookupLive (now : Nat) (st : RedisState) (k : String) : Option Entry :=
  match lookupEntry st k with
  | none => none
  | some e => if entryLive now e then some e else none

/-- Redis `GET key` (with `decode_responses=True` the client returns the stored
string; `none` models Python `None` for an absent or expired key). -/
def redis_get (now : Nat) (st : RedisState) (k : String) : Option Json :=
  match lookupLive now st k with
  | none => none
  | some e => some e.value

/-- Redis `SETEX key ttl value`: rejects a non-positive ttl with a
ResponseError ("invalid expire time") leaving the keyspace untouched;
otherwise unconditionally overwrites the entry with expiry `now + ttl`. -/
def setex (now : Nat) (st : RedisState) (k : String) (ttl : Int) (v : Json) :
    Option Err × RedisState :=
  if ttl ≤ 0 then (some .invalidTTL, st)
  else (none, insertEntry st k ⟨v, some (now + ttl.toNat)⟩)

/-- Redis `DEL key`: returns the number of keys removed (0 for an absent or
already-expired key) and never errors. -/
def redis_del (now : Nat) (st : RedisState) (k : String) : Nat × RedisState :=
  (if (lookupLive now st k).isSome then 1 else 0, eraseKey st k)

/-- Glob matching on character lists: `*` matches any run of characters, any
other pattern character matches itself (the source's patterns use only `*`). -/
def globMatch : List Char → List Char → Bool
  | [], ss => ss.isEmpty
  | p :: ps, ss =>
    if p = '*' then
      match ss with
      | [] => globMatch ps []
      | _ :: ss' => globMatch ps ss || globMatch (p :: ps) ss'
    else
      match ss with
      | [] => false
      | c :: ss' => p == c && globMatch ps ss'
termination_by ps ss => (ps.length, ss.length)

/-- Glob matching on strings, as Redis `SCAN ... MATCH pattern` applies it. -/
def keyMatch (pat k : String) : Bool :=
  globMatch pat.data k.data

/-- Redis `scan_iter(pattern)`: the keys of the live (unexpired) entries whose
name matches the glob pattern.  Expired-but-unreaped entries are logically
absent and are not yielded. -/
def scan_iter (now : Nat) (st : RedisState) (pat : String) : List String :=
  (st.filter (fun p => keyMatch pat p.1 && entryLive now p.2)).map Prod.fst

/-- Redis `EXPIRE key ttl`: sets the expiry of a live key; no effect on an
absent or expired key. -/
def redis_expire (now : Nat) (st : RedisState) (k : String) (ttl : Nat) : RedisState :=
  match lookupLive now st k with
  | none => st
  | some e => insertEntry st k ⟨e.value, some (now + ttl)⟩

/-- Redis `INCR key`: creates an absent (or expired) key at 1 with no expiry
(initialize to 0, then increment); increments a live integer value keeping its
expiry; errors on a live non-integer value. -/
def incr (now : Nat) (st : RedisState) (k : String) : Except Err (Int × RedisState) :=
  match lookupLive now st k with
  | none => .ok (1, insertEntry st k ⟨.num 1, none⟩)
  | some e =>
    match e.value with
    | .num n => .ok (n + 1, insertEntry st k ⟨.num (n + 1), e.expiresAt⟩)
    | _ => .error .wrongType

/-- `cache_get(key)` (lines 107–115): `value = redis_client.get(key)`;
`if value: return json.loads(value)` else `return None`.  The stored string is
`json.dumps` of the value, so the truthiness test is on that string; the
function's Python return value is `json.loads(dumps v)`, i.e. `v` itself, with
Python `None` (`Json.null`) returned on a miss. -/
def cache_get (now : Nat) (st : RedisState) (k : String) : Json :=
  match redis_get now st k with
  | none => .null
  | some v => if dumps v = "" then .null else v

/-- `cache_set(key, value, ttl_seconds)` (lines 117–130):
`redis_client.setex(key, ttl_seconds, json.dumps(value))`.  Returns the
propagated error (if any) together with the post-state. -/
def cache_set (now : Nat) (st : RedisState) (k : String) (v : Json) (ttl_seconds : Int) :
    Option Err × RedisState :=
  setex now st k ttl_seconds v

/-- `cache_delete(key)` (lines 132–134): `redis_client.delete(key)` with the
client's count discarded; the Python function has no `return`, so its return
value is `None` (first component: `none`; a returned boolean would be
`some b`). -/
def cache_delete (now : Nat) (st : RedisState) (k : String) : Option Bool × RedisState :=
  (none, (redis_del now st k).2)

/-- `cache_delete_pattern(pattern)` (lines 136–139):
`for key in redis_client.scan_iter(pattern): redis_client.delete(key)`.
The Python function has no `return`, so its return value is `None` (first
component: `none`; a returned count would be `some n`). -/
def cache_delete_pattern (now : Nat) (st : RedisState) (pat : String) :
    Option Nat × RedisState :=
  (none, (scan_iter now st pat).foldl (fun s k => (redis_del now s k).2) st)

/-- A row of the `products` table (`ProductModel`).  Attribute values are kept
in the dynamically-typed `Json` domain since `update_product_write_through`
assigns raw JSON body values to them via `setattr`. -/
structure ProductModel where
  id : Int
  name : Json
  description : Json
  price : Json
  category : Json

/-- The `products` table. -/
abbrev Db := List ProductModel

/-- `db.query(ProductModel).filter(ProductModel.id == product_id).first()`. -/
def dbFind (db : Db) (pid : Int) : Option ProductModel :=
  match db with
  | [] => none
  | p :: rest => if p.id = pid then some p else dbFind rest pid

/-- Replace the row with primary key `pid`. -/
def dbReplace (db : Db) (pid : Int) (p' : ProductModel) : Db :=
  db.map (fun q => if q.id = pid then p' else q)

/-- `ProductResponse.from_orm(product).dict()`: the serialized product dict. -/
def productJson (p : ProductModel) : Json :=
  .obj [("id", .num p.id), ("name", p.name), ("description", p.description),
        ("price", p.price), ("category", p.category)]

/-- `setattr(product, key, value)` guarded by `hasattr(product, key)`: updates
the named column attribute, ignores unknown keys (the `id` primary key is not
touched by the source's update payloads and is left fixed here). -/
def setattrField (p : ProductModel) (k : String) (v : Json) : ProductModel :=
  if k = "name" then { p with name := v }
  else if k = "description" then { p with description := v }
  else if k = "price" then { p with price := v }
  else if k = "category" then { p with category := v }
  else p

/-- `for key, value in updates.items(): if hasattr(...): setattr(...)`. -/
def applyUpdates (p : ProductModel) (updates : List (String × Json)) : ProductModel :=
  updates.foldl (fun q kv => setattrField q kv.1 kv.2) p

/-- Outcome of the cache-aside read route: propagated error (if any), the
route's hit/miss marker ("CACHE HIT" vs "CACHE MISS" in the response),
the returned product, the number of database-loader calls made, and the
cache post-state. -/
structure AsideResult where
  err : Option Err
  hit : Option Bool
  product : Option Json
  loaderCalls : Nat
  cache : RedisState

/-- `get_product_cache_aside` (lines 151–198): check the cache
(`if cached:` — Python truthiness of the loaded value), on a miss load from
the database (404 if absent), store the result with a 1-hour TTL and return
it marked as a miss. -/
def get_product_cache_aside (now : Nat) (st : RedisState) (db : Db) (product_id : Int) :
    AsideResult :=
  let cache_key := "product:" ++ intRepr product_id
  let cached := cache_get now st cache_key
  if cached.truthy then
    { err := none, hit := some true, product := some cached, loaderCalls := 0, cache := st }
  else
    match dbFind db product_id with
    | none =>
      { err := some .notFound, hit := none, product := none, loaderCalls := 1, cache := st }
    | some product =>
      let product_data := productJson product
      match cache_set now st cache_key product_data 3600 with
      | (some e, st1) =>
        { err := some e, hit := none, product := none, loaderCalls := 1, cache := st1 }
      | (none, st1) =>
        { err := none, hit := some false, product := some product_data,
          loaderCalls := 1, cache := st1 }

/-- Outcome of a write-through route: propagated error (if any), the returned
product dict, and the database and cache post-states. -/
structure WriteResult where
  err : Option Err
  product : Option Json
  db : Db
  cache : RedisState

/-- The payload of `POST /write-through/products` (`ProductCreate`). -/
structure ProductCreate where
  name : Json
  description : Json
  price : Json
  category : Json

/-- The primary key the database assigns to a newly inserted row. -/
def nextId (db : Db) : Int :=
  (db.foldl (fun m p => max m p.id) 0) + 1

/-- `create_product_write_through` (lines 204–245): write to the database
first (`commitOk = false` models a failing `db.commit()`, whose exception
propagates before the cache is touched), then `cache_set` the product with a
1-hour TTL, then invalidate every `products:list:*` cache key. -/
def create_product_write_through (now : Nat) (st : RedisState) (db : Db)
    (product : ProductCreate) (commitOk : Bool) : WriteResult :=
  if commitOk = false then
    { err := some .writeError, product := none, db := db, cache := st }
  else
    let db_product : ProductModel :=
      { id := nextId db, name := product.name, description := product.description,
        price := product.price, category := product.category }
    let db1 := db ++ [db_product]
    let product_data := productJson db_product
    let cache_key := "product:" ++ intRepr db_product.id
    match cache_set now st cache_key product_data 3600 with
    | (some e, st1) => { err := some e, product := none, db := db1, cache := st1 }
    | (none, st1) =>
      let st2 := (cache_delete_pattern now st1 "products:list:*").2
      { err := none, product := some product_data, db := db1, cache := st2 }

/-- `update_product_write_through` (lines 247–279): 404 if the product is
absent; apply the raw `updates` dict via `setattr`; commit (`commitOk = false`
models a failing `db.commit()`, which propagates leaving database and cache
untouched); then `cache_set` the updated product with a 1-hour TTL.  No list
cache is invalidated on this path. -/
def update_product_write_through (now : Nat) (st : RedisState) (db : Db)
    (product_id : Int) (updates : List (String × Json)) (commitOk : Bool) : WriteResult :=
  match dbFind db product_id with
  | none => { err := some .notFound, product := none, db := db, cache := st }
  | some product =>
    let updated := applyUpdates product updates
    if commitOk = false then
      { err := some .writeError, product := none, db := db, cache := st }
    else
      let db1 := dbReplace db product_id updated
      let product_data := productJson updated
      match cache_set now st ("product:" ++ intRepr product_id) product_data 3600 with
      | (some e, st1) => { err := some e, product := none, db := db1, cache := st1 }
      | (none, st1) => { err := none, product := some product_data, db := db1, cache := st1 }

/-- Lines 515–519 of `rate_limited_search`, factored with the window TTL as a
parameter (the source passes 60): `request_count = redis_client.incr(key)`;
`if request_count == 1: redis_client.expire(key, window_ttl)`.  This is the
spec's `Store.increment(key, window_ttl)`. -/
def increment (now : Nat) (st : RedisState) (k : String) (window_ttl : Nat) :
    Except Err (Int × RedisState) :=
  match incr now st k with
  | .error e => .error e
  | .ok (n, st1) => .ok (n, if n = 1 then redis_expire now st1 k window_ttl else st1)

/-- Outcome of the rate-limited search route: propagated error (429 if over
the limit), the post-increment count, the reported `remaining` (only present
on an allowed request), and the cache post-state. -/
structure RateResult where
  err : Option Err
  count : Option Int
  remaining : Option Int
  cache : RedisState

/-- The source's per-minute request limit (local constant of the route). -/
def RATE_LIMIT : Int := 10

/-- `rate_limited_search` (lines 492–544): key `rate:{ip}:{minute}` with
`minute = now / 60`; atomic increment, TTL of 60s set only on the first
request of the minute; 429 when the post-increment count exceeds
`RATE_LIMIT`, otherwise report `remaining = RATE_LIMIT - count`. -/
def rate_limited_search (now : Nat) (st : RedisState) (client_ip : String) : RateResult :=
  let current_minute := now / 60
  let rate_key := "rate:" ++ client_ip ++ ":" ++ natRepr current_minute
  match increment now st rate_key 60 with
  | .error e => { err := some e, count := none, remaining := none, cache := st }
  | .ok (request_count, st1) =>
    if RATE_LIMIT < request_count then
      { err := some .tooManyRequests, count := some request_count,
        remaining := none, cache := st1 }
    else
      { err := none, count := some request_count,
        remaining := some (RATE_LIMIT - request_count), cache := st1 }

/-- Outcome of the delete-with-invalidation route. -/
structure DeleteResult where
  err : Option Err
  invalidated : List String
  db : Db
  cache : RedisState

/-- `delete_product_with_cache_invalidation` (lines 679–727): 404 if absent;
delete the row; `cache_delete` the product key; then scan-and-delete every
`products:list:*` key, recording each invalidated key. -/
def delete_product_with_cache_invalidation (now : Nat) (st : RedisState) (db : Db)
    (product_id : Int) : DeleteResult :=
  match dbFind db product_id with
  | none => { err := some .notFound, invalidated := [], db := db, cache := st }
  | some _ =>
    let db1 := db.filter (fun q => q.id != product_id)
    let key := "product:" ++ intRepr product_id
    let st1 := (cache_delete now st key).2
    let listKeys := scan_iter now st1 "products:list:*"
    let st2 := listKeys.foldl (fun s k => (redis_del now s k).2) st1
    { err := none, invalidated := key :: listKeys, db := db1, cache := st2 }

/-- `ttl_remaining(key)` of spec section 4.1 (the source reads it via
`redis_client.ttl`): `none` if absent or expired, else the remaining
duration, never negative. -/
def ttl_remaining (now : Nat) (st : RedisState) (k : String) : Option Nat :=
  match lookupLive now st k with
  | none => none
  | some e =>
    match e.expiresAt with
    | none => none
    | some t => some (t - now)

/-- Modelled from the spec: the generic rate limiter
`allow(client_key, limit, window_ttl) -> (allowed, remaining, reset_in)` of
section 4.4 is not itself in the source — the source only has its
specialization `rate_limited_search` with `limit = 10` and `window = 60` —
so the parametric form follows the spec's words:
`store.increment("rate:" + client_key, window_ttl)`, then
`allowed = (count <= limit)`, `remaining = limit - count`, and `reset_in` the
remaining TTL of the counter. -/
def allow (now : Nat) (st : RedisState) (client_key : String) (limit : Int)
    (window_ttl : Nat) : Except Err (Bool × Int × Option Nat × RedisState) :=
  match increment now st ("rate:" ++ client_key) window_ttl with
  | .error e => .error e
  | .ok (count, st1) =>
    .ok (decide (count ≤ limit), limit - count, ttl_remaining now st1 ("rate:" ++ client_key), st1)

/-- Iterate `allow` from a given state, collecting each call's
`(allowed, remaining)` report. -/
def allowCalls (now : Nat) (client_key : String) (limit : Int) (window_ttl : Nat) :
    Nat → RedisState → List (Bool × Int) × RedisState
  | 0, st => ([], st)
  | n + 1, st =>
    match allow now st client_key limit window_ttl with
    | .error _ => ([], st)
    | .ok (a, rem, _, st1) =>
      let rest := allowCalls now client_key limit window_ttl n st1
      ((a, rem) :: rest.1, rest.2)

/-- Run a list of `cache_set` operations in order (ignoring each call's
error/ok marker, as the source's callers do). -/
def runSets (now : Nat) : List (String × Json × Int) → RedisState → RedisState
  | [], st => st
  | (k, v, ttl) :: rest, st => runSets now rest (cache_set now st k v ttl).2

/-! ### Serialization facts -/

theorem natRepr_length_pos (n : Nat) : 0 < (natRepr n).length := by
  unfold natRepr
  split
  · simp [String.singleton, String.length]
  · rw [String.length_append]
    have h : 0 < (String.singleton (Char.ofNat (48 + n % 10))).length := by
      simp [String.singleton, String.length]
    omega

theorem intRepr_length_pos (n : Int) : 0 < (intRepr n).length := by
  unfold intRepr
  split
  · rw [String.length_append]
    have h := natRepr_length_pos n.natAbs
    omega
  · exact natRepr_length_pos n.toNat

/-- `json.dumps` never produces the empty string, so the `if value:` guard in
`cache_get` is always taken on a genuine hit. -/
theorem dumps_length_pos (j : Json) : 0 < (dumps j).length := by
  cases j with
  | null => decide
  | bool b => cases b <;> decide
  | num n => simpa [dumps] using intRepr_length_pos n
  | str s =>
    simp only [dumps, String.length_append]
    have h1 : ("\"" : String).length = 1 := rfl
    omega
  | arr xs =>
    simp only [dumps, String.length_append]
    have h1 : ("[" : String).length = 1 := rfl
    have h2 : ("]" : String).length = 1 := rfl
    omega
  | obj fs =>
    simp only [dumps, String.length_append]
    have h1 : ("\x7b" : String).length = 1 := rfl
    have h2 : ("\x7d" : String).length = 1 := rfl
    omega

theorem dumps_ne_empty (j : Json) : dumps j ≠ "" := by
  intro h
  have hl := dumps_length_pos j
  rw [h] at hl
  simp [String.length] at hl

/-! ### Association-list facts about the keyspace -/

theorem lookupEntry_insertEntry_self (st : RedisState) (k : String) (e : Entry) :
    lookupEntry (insertEntry st k e) k = some e := by
  induction st with
  | nil => simp [insertEntry, lookupEntry]
  | cons p rest ih =>
    obtain ⟨k', e'⟩ := p
    by_cases h : k' = k
    · simp [insertEntry, lookupEntry, h]
    · simp [insertEntry, lookupEntry, h, ih]

theorem lookupEntry_insertEntry_ne (st : RedisState) (k k' : String) (e : Entry)
    (h : k' ≠ k) : lookupEntry (insertEntry st k e) k' = lookupEntry st k' := by
  induction st with
  | nil => simp [insertEntry, lookupEntry, Ne.symm h]
  | cons p rest ih =>
    obtain ⟨k₀, e₀⟩ := p
    by_cases h₀ : k₀ = k
    · subst h₀
      simp [insertEntry, lookupEntry, Ne.symm h]
    · by_cases h₁ : k₀ = k'
      · simp [insertEntry, lookupEntry, h₀, h₁, h]
      · simp [insertEntry, lookupEntry, h₀, h₁, ih]

theorem lookupEntry_eraseKey_self (st : RedisState) (k : String) :
    lookupEntry (eraseKey st k) k = none := by
  induction st with
  | nil => simp [eraseKey, lookupEntry]
  | cons p rest ih =>
    obtain ⟨k₀, e₀⟩ := p
    by_cases h : k₀ = k
    · simpa [eraseKey, List.filter_cons, bne_iff_ne, h] using ih
    · simpa [eraseKey, List.filter_cons, bne_iff_ne, h, lookupEntry] using ih

theorem lookupEntry_eraseKey_ne (st : RedisState) (k k' : String) (h : k' ≠ k) :
    lookupEntry (eraseKey st k) k' = lookupEntry st k' := by
  induction st with
  | nil => simp [eraseKey, lookupEntry]
  | cons p rest ih =>
    obtain ⟨k₀, e₀⟩ := p
    by_cases h₀ : k₀ = k
    · subst h₀
      simpa [eraseKey, List.filter_cons, bne_iff_ne, lookupEntry, Ne.symm h] using ih
    · by_cases h₁ : k₀ = k'
      · simp [eraseKey, List.filter_cons, bne_iff_ne, h₀, h₁, h, lookupEntry]
      · simpa [eraseKey, List.filter_cons, bne_iff_ne, h₀, h₁, lookupEntry] using ih

theorem eraseKey_idem (st : RedisState) (k : String) :
    eraseKey (eraseKey st k) k = eraseKey st k := by
  simp [eraseKey, List.filter_filter]

/-! ### The scan-and-delete loop as a filter -/

theorem foldl_del_eq_filter (now : Nat) (L : List String) (s : RedisState) :
    L.foldl (fun s k => (redis_del now s k).2) s
      = s.filter (fun p => !(L.contains p.1)) := by
  induction L generalizing s with
  | nil => simp
  | cons k L ih =>
    rw [List.foldl_cons, ih]
    show (eraseKey s k).filter _ = _
    rw [eraseKey, List.filter_filter]
    apply List.filter_congr
    intro p _
    show (!L.contains p.1 && p.1 != k) = !((k :: L).contains p.1)
    by_cases h : p.1 = k
    · simp [h]
    · simp [h, bne_iff_ne, List.contains_cons, Ne.symm h]

theorem keyMatch_of_mem_scan_iter (now : Nat) (st : RedisState) (pat k : String)
    (h : k ∈ scan_iter now st pat) : keyMatch pat k = true := by
  simp only [scan_iter, List.mem_map, List.mem_filter] at h
  obtain ⟨p, ⟨_, hp⟩, hk⟩ := h
  subst hk
  simp only [Bool.and_eq_true] at hp
  exact hp.1

/-- With unique keys, the lookup result at the key of a member pair is that
pair's entry. -/
theorem lookupEntry_of_mem (st : RedisState) (p : String × Entry)
    (hw : (st.map Prod.fst).Nodup) (hmem : p ∈ st) :
    lookupEntry st p.1 = some p.2 := by
  induction st with
  | nil => cases hmem
  | cons q rest ih =>
    rw [List.map_cons, List.nodup_cons] at hw
    rcases List.mem_cons.mp hmem with h₁ | h₁
    · subst h₁; simp [lookupEntry]
    · have hne : q.1 ≠ p.1 := by
        intro he
        exact hw.1 (he ▸ List.mem_map_of_mem Prod.fst h₁)
      simp [lookupEntry, hne, ih hw.2 h₁]

theorem live_of_mem_scan_iter (now : Nat) (st : RedisState) (pat k : String)
    (hw : (st.map Prod.fst).Nodup) (h : k ∈ scan_iter now st pat) :
    (lookupLive now st k).isSome = true := by
  simp only [scan_iter, List.mem_map, List.mem_filter] at h
  obtain ⟨p, ⟨hmem, hp⟩, hk⟩ := h
  subst hk
  simp only [Bool.and_eq_true] at hp
  have hlk := lookupEntry_of_mem st p hw hmem
  simp [lookupLive, hlk, hp.2]

/-- Filtering with a predicate that keeps everything stored under `k` does not
change the lookup at `k`. -/
theorem lookupEntry_filter_keep (st : RedisState) (k : String)
    (f : String × Entry → Bool) (hf : ∀ e, f (k, e) = true) :
    lookupEntry (st.filter f) k = lookupEntry st k := by
  induction st with
  | nil => simp
  | cons p rest ih =>
    obtain ⟨k₀, e₀⟩ := p
    by_cases h : k₀ = k
    · subst h
      rw [List.filter_cons, hf e₀]
      simp [lookupEntry]
    · rw [List.filter_cons]
      cases hc : f (k₀, e₀) <;> simp [lookupEntry, h, ih]

/-- On a keyspace without duplicate keys, the scan-and-delete loop of
`cache_delete_pattern` removes exactly the live entries whose key matches the
pattern. -/
theorem cache_delete_pattern_eq_filter (now : Nat) (st : RedisState) (pat : String)
    (hw : (st.map Prod.fst).Nodup) :
    (cache_delete_pattern now st pat).2
      = st.filter (fun p => !(keyMatch pat p.1 && entryLive now p.2)) := by
  show (scan_iter now st pat).foldl _ st = _
  rw [foldl_del_eq_filter]
  apply List.filter_congr
  intro p hmem
  have hc : ((scan_iter now st pat).contains p.1) = (keyMatch pat p.1 && entryLive now p.2) := by
    by_cases hp : (keyMatch pat p.1 && entryLive now p.2) = true
    · rw [hp]
      have hin : p.1 ∈ scan_iter now st pat :=
        List.mem_map_of_mem Prod.fst (List.mem_filter.mpr ⟨hmem, hp⟩)
      simpa using hin
    · rw [Bool.not_eq_true] at hp
      rw [hp]
      have hnotin : p.1 ∉ scan_iter now st pat := by
        intro hin
        simp only [scan_iter, List.mem_map, List.mem_filter] at hin
        obtain ⟨q, ⟨hqmem, hq⟩, hk⟩ := hin
        have h₁ := lookupEntry_of_mem st p hw hmem
        have h₂ := lookupEntry_of_mem st q hw hqmem
        rw [hk] at h₂
        rw [h₁] at h₂
        have : q = p := Prod.ext hk (Option.some.inj h₂).symm
        rw [this] at hq
        rw [hq] at hp
        cases hp
      simpa using hnotin
  rw [hc]

/-! ### Glob facts -/

theorem globMatch_products_list_product (cs : List Char) :
    globMatch "products:list:*".data ('p' :: 'r' :: 'o' :: 'd' :: 'u' :: 'c' :: 't' :: ':' :: cs) = false := by
  simp [globMatch]

/-- A single-product cache key `product:<n>` never matches the list-cache
pattern `products:list:*`. -/
theorem keyMatch_products_list_product_key (s : String) :
    keyMatch "products:list:*" ("product:" ++ s) = false := by
  rw [keyMatch, String.data_append]
  exact globMatch_products_list_product s.data

/-! ### `cache_get` / `cache_set` interaction -/

theorem cache_get_of_lookupLive (now : Nat) (st : RedisState) (k : String) (e : Entry)
    (h : lookupLive now st k = some e) : cache_get now st k = e.value := by
  simp [cache_get, redis_get, h, dumps_ne_empty e.value]

theorem cache_get_of_lookupLive_none (now : Nat) (st : RedisState) (k : String)
    (h : lookupLive now st k = none) : cache_get now st k = Json.null := by
  simp [cache_get, redis_get, h]

theorem cache_set_pos (now : Nat) (st : RedisState) (k : String) (v : Json) (ttl : Int)
    (h : 0 < ttl) :
    cache_set now st k v ttl = (none, insertEntry st k ⟨v, some (now + ttl.toNat)⟩) := by
  simp [cache_set, setex]
  omega

theorem lookupLive_set_same (now : Nat) (st : RedisState) (k : String) (v : Json)
    (ttl : Int) (h : 0 < ttl) :
    lookupLive now (cache_set now st k v ttl).2 k = some ⟨v, some (now + ttl.toNat)⟩ := by
  rw [cache_set_pos now st k v ttl h]
  have hl := lookupEntry_insertEntry_self st k ⟨v, some (now + ttl.toNat)⟩
  have hlive : entryLive now ⟨v, some (now + ttl.toNat)⟩ = true := by
    simp [entryLive]
    omega
  simp [lookupLive, hl, hlive]

theorem cache_get_set_same (now : Nat) (st : RedisState) (k : String) (v : Json)
    (ttl : Int) (h : 0 < ttl) :
    cache_get now (cache_set now st k v ttl).2 k = v :=
  cache_get_of_lookupLive now _ k _ (lookupLive_set_same now st k v ttl h)

theorem lookupEntry_set_other (now : Nat) (st : RedisState) (k k' : String) (v : Json)
    (ttl : Int) (h : k' ≠ k) :
    lookupEntry (cache_set now st k v ttl).2 k' = lookupEntry st k' := by
  by_cases ht : ttl ≤ 0
  · simp [cache_set, setex, ht]
  · simp [cache_set, setex, ht, lookupEntry_insertEntry_ne st k k' _ h]

theorem cache_get_set_other (now : Nat) (st : RedisState) (k k' : String) (v : Json)
    (ttl : Int) (h : k' ≠ k) :
    cache_get now (cache_set now st k v ttl).2 k' = cache_get now st k' := by
  simp [cache_get, redis_get, lookupLive, lookupEntry_set_other now st k k' v ttl h]

theorem cache_get_runSets_not_mem (now : Nat) (ops : List (String × Json × Int))
    (st : RedisState) (k' : String) (h : k' ∉ ops.map (fun o => o.1)) :
    cache_get now (runSets now ops st) k' = cache_get now st k' := by
  induction ops generalizing st with
  | nil => rfl
  | cons op rest ih =>
    obtain ⟨k, v, ttl⟩ := op
    rw [List.map_cons, List.mem_cons] at h
    push_neg at h
    show cache_get now (runSets now rest (cache_set now st k v ttl).2) k' = _
    rw [ih _ h.2, cache_get_set_other now st k k' v ttl h.1]

/-! ## Claim theorems -/

/-- **C1** (counterexample).  The claim promises that for *every*
JSON-serializable value a `set` followed by `get` returns the value as a hit,
distinguishable from the Miss returned for an unset key.  For the value
`null` this fails: `cache_set` stores `"null"`, `cache_get` loads it back as
Python `None` — exactly the `None` that `cache_get` returns for a key that
was never set, so the two outcomes coincide. -/
theorem set_null_get_indistinguishable_from_miss :
    cache_get 0 (cache_set 0 [] "k" Json.null 60).2 "k" = Json.null ∧
    cache_get 0 ([] : RedisState) "k" = Json.null :=
  ⟨cache_get_set_same 0 [] "k" Json.null 60 (by decide), rfl⟩

/-- **C1** (amended): for every key, every JSON-serializable value *other
than `null`*, and every `ttl > 0`, `set(key, value, ttl)` immediately
followed by `get(key)` returns the value, `cache_set` raises no error, a key
never set (under any sequence of sets of other keys from the empty store)
reads as `None`, and for non-null values the two outcomes are
distinguishable.  (For the value `null` the hit is indistinguishable from a
miss, since `cache_get` returns Python `None` in both cases.) -/
theorem set_then_get_returns_value (now : Nat) (st : RedisState) (k k' : String)
    (v : Json) (ttl : Int) (ops : List (String × Json × Int))
    (h1 : 0 < ttl) (h2 : v ≠ Json.null) (h3 : k' ∉ ops.map (fun o => o.1)) :
    (cache_set now st k v ttl).1 = none ∧
    cache_get now (cache_set now st k v ttl).2 k = v ∧
    cache_get now (runSets now ops []) k' = Json.null ∧
    cache_get now (cache_set now st k v ttl).2 k ≠ Json.null := by
  refine ⟨?_, cache_get_set_same now st k v ttl h1, ?_, ?_⟩
  · rw [cache_set_pos now st k v ttl h1]
  · rw [cache_get_runSets_not_mem now ops [] k' h3]
    rfl
  · rw [cache_get_set_same now st k v ttl h1]
    exact h2

theorem set_then_get_returns_value_witness :
    (cache_set 0 [] "k" (Json.num 7) 60).1 = none ∧
    cache_get 0 (cache_set 0 [] "k" (Json.num 7) 60).2 "k" = Json.num 7 ∧
    cache_get 0 (runSets 0 [("a", Json.num 1, 60)] []) "k" = Json.null ∧
    cache_get 0 (cache_set 0 [] "k" (Json.num 7) 60).2 "k" ≠ Json.null :=
  set_then_get_returns_value 0 [] "k" "k" (Json.num 7) 60 [("a", Json.num 1, 60)]
    (by decide) (fun h => Json.noConfusion h) (by simp)

/-- **C9** (confirmed): `cache_set` with a zero or negative TTL is rejected by
the client's SETEX validation ("invalid expire time", modelled as
`Err.invalidTTL`): the error is reported to the caller, the TTL is not
coerced, and no entry is stored — the keyspace is returned unchanged. -/
theorem cache_set_nonpositive_ttl_rejected (now : Nat) (st : RedisState) (k : String)
    (v : Json) (ttl : Int) (h : ttl ≤ 0) :
    cache_set now st k v ttl = (some Err.invalidTTL, st) := by
  simp [cache_set, setex, h]

theorem cache_set_nonpositive_ttl_rejected_witness :
    cache_set 0 [] "k" (Json.num 1) 0 = (some Err.invalidTTL, []) :=
  cache_set_nonpositive_ttl_rejected 0 [] "k" (Json.num 1) 0 (by decide)

/-- **C8** (counterexample).  The claim says `delete(key)` returns `true`
when a key was removed and `false` when absent.  The source's `cache_delete`
has no `return` statement: it discards the client's count and returns `None`,
even when a live key is in fact removed (here `"k"` is removed from the
keyspace, yet the return value is not `true`). -/
theorem cache_delete_returns_none_not_bool :
    (cache_delete 0 [("k", ⟨Json.num 1, some 10⟩)] "k").1 ≠ some true ∧
    (cache_delete 0 [("k", ⟨Json.num 1, some 10⟩)] "k").2 = [] := by
  constructor
  · intro h
    cases h
  · rfl

/-- **C8** (amended): `cache_delete(key)` removes the key from the keyspace,
leaves every other key untouched, is idempotent (a second delete is a no-op
and the underlying client count is then 0), never errors on a missing key
(it is a total function), and returns `None` — the removed/absent distinction
is only visible in the discarded client-level `DEL` count, which is 1 when a
live key was removed and 0 when the key was absent or expired. -/
theorem cache_delete_semantics (now : Nat) (st : RedisState) (k : String) :
    (cache_delete now st k).1 = none ∧
    ((redis_del now st k).1 = 1 ↔ (lookupLive now st k).isSome = true) ∧
    lookupEntry (cache_delete now st k).2 k = none ∧
    (∀ k', k' ≠ k → lookupEntry (cache_delete now st k).2 k' = lookupEntry st k') ∧
    (redis_del now (cache_delete now st k).2 k).1 = 0 ∧
    (cache_delete now (cache_delete now st k).2 k).2 = (cache_delete now st k).2 := by
  refine ⟨rfl, ?_, ?_, ?_, ?_, ?_⟩
  · cases h : lookupLive now st k <;> simp [redis_del, h]
  · exact lookupEntry_eraseKey_self st k
  · intro k' h
    exact lookupEntry_eraseKey_ne st k k' h
  · have h := lookupEntry_eraseKey_self st k
    simp [redis_del, cache_delete, lookupLive, h]
  · show eraseKey (eraseKey st k) k = eraseKey st k
    exact eraseKey_idem st k

theorem cache_delete_semantics_witness :
    (cache_delete 0 [("k", ⟨Json.num 1, some 10⟩)] "x").1 = none ∧
    lookupEntry (cache_delete 0 [("k", ⟨Json.num 1, some 10⟩)] "x").2 "k"
      = lookupEntry [("k", ⟨Json.num 1, some 10⟩)] "k" :=
  ⟨(cache_delete_semantics 0 [("k", ⟨Json.num 1, some 10⟩)] "x").1,
    (cache_delete_semantics 0 [("k", ⟨Json.num 1, some 10⟩)] "x").2.2.2.1 "k"
      (by decide)⟩

/-- **C7** (counterexample).  The claim says `delete_matching(pattern)`
returns the number of keys removed.  The source's `cache_delete_pattern` has
no `return` statement: here one live matching key (`"a:b"`) is removed, yet
the function returns `None`, not 1. -/
theorem cache_delete_pattern_returns_none_not_count :
    (cache_delete_pattern 0 [("a:b", ⟨Json.num 1, some 10⟩)] "a:*").1 ≠ some 1 ∧
    (cache_delete_pattern 0 [("a:b", ⟨Json.num 1, some 10⟩)] "a:*").2 = [] := by
  constructor
  · intro h
    cases h
  · show (scan_iter 0 _ "a:*").foldl _ _ = _
    simp [scan_iter, keyMatch, globMatch, entryLive, redis_del, eraseKey]

/-- **C7** (amended): on a keyspace without duplicate keys,
`cache_delete_pattern(pattern)` removes exactly the non-expired keys matching
the glob pattern, leaves every other entry (including expired matching
entries) untouched, scans only live matching keys (so an already-expired
entry is never visited or counted as invalidated), and returns `None` — the
count of removed keys is not returned. -/
theorem cache_delete_pattern_semantics (now : Nat) (st : RedisState) (pat : String)
    (hw : (st.map Prod.fst).Nodup) :
    (cache_delete_pattern now st pat).1 = none ∧
    (cache_delete_pattern now st pat).2
      = st.filter (fun p => !(keyMatch pat p.1 && entryLive now p.2)) ∧
    (∀ k, k ∈ scan_iter now st pat →
      keyMatch pat k = true ∧ (lookupLive now st k).isSome = true) := by
  refine ⟨rfl, cache_delete_pattern_eq_filter now st pat hw, ?_⟩
  intro k hk
  exact ⟨keyMatch_of_mem_scan_iter now st pat k hk,
    live_of_mem_scan_iter now st pat k hw hk⟩

theorem cache_delete_pattern_semantics_witness :
    (cache_delete_pattern 0
        [("products:list:a", ⟨Json.num 1, some 10⟩), ("product:1", ⟨Json.num 2, some 10⟩)]
        "products:list:*").1 = none ∧
    (cache_delete_pattern 0
        [("products:list:a", ⟨Json.num 1, some 10⟩), ("product:1", ⟨Json.num 2, some 10⟩)]
        "products:list:*").2
      = List.filter (fun p => !(keyMatch "products:list:*" p.1 && entryLive 0 p.2))
          [("products:list:a", ⟨Json.num 1, some 10⟩), ("product:1", ⟨Json.num 2, some 10⟩)] ∧
    (∀ k, k ∈ scan_iter 0
        [("products:list:a", ⟨Json.num 1, some 10⟩), ("product:1", ⟨Json.num 2, some 10⟩)]
        "products:list:*" →
      keyMatch "products:list:*" k = true ∧
      (lookupLive 0
        [("products:list:a", ⟨Json.num 1, some 10⟩), ("product:1", ⟨Json.num 2, some 10⟩)]
        k).isSome = true) :=
  cache_delete_pattern_semantics 0
    [("products:list:a", ⟨Json.num 1, some 10⟩), ("product:1", ⟨Json.num 2, some 10⟩)]
    "products:list:*" (by decide)

/-- The product dict built by the routes is a non-empty JSON object, hence
truthy under Python's `if cached:` test. -/
theorem productJson_truthy (p : ProductModel) : (productJson p).truthy = true := rfl

/-- **C3** (confirmed): in the cache-aside route, when the cache misses and
the loader (the database query) fails — here, the product is absent and the
route raises 404 — the error propagates to the caller, the loader was called
(once), the cache is left unchanged, and a subsequent `get` on the same key
still misses: nothing, in particular no failure marker, was cached. -/
theorem cache_aside_loader_failure_uncached (now : Nat) (st : RedisState) (db : Db)
    (product_id : Int)
    (hmiss : (cache_get now st ("product:" ++ intRepr product_id)).truthy = false)
    (hdb : dbFind db product_id = none) :
    (get_product_cache_aside now st db product_id).err = some Err.notFound ∧
    (get_product_cache_aside now st db product_id).loaderCalls = 1 ∧
    (get_product_cache_aside now st db product_id).cache = st ∧
    (cache_get now (get_product_cache_aside now st db product_id).cache
      ("product:" ++ intRepr product_id)).truthy = false := by
  refine ⟨?_, ?_, ?_, ?_⟩ <;> simp [get_product_cache_aside, hmiss, hdb]

theorem cache_aside_loader_failure_uncached_witness :
    (get_product_cache_aside 0 [] [] 1).err = some Err.notFound ∧
    (get_product_cache_aside 0 [] [] 1).loaderCalls = 1 ∧
    (get_product_cache_aside 0 [] [] 1).cache = [] ∧
    (cache_get 0 (get_product_cache_aside 0 [] [] 1).cache
      ("product:" ++ intRepr 1)).truthy = false :=
  cache_aside_loader_failure_uncached 0 [] [] 1 rfl rfl

/-- **C4** (confirmed): in the cache-aside route, (a) on a hit — the key
holding a live product dict stored by a previous call — the loader is never
called and the route reports `(value, hit = true)` without touching the
cache; (b) on a miss with the product in the database, the loader is called
exactly once, the route reports `(value, hit = false)` and stores the value
with a one-hour TTL; (c) hence a second call immediately after a miss is a
hit that does not call the loader and returns the same value. -/
theorem cache_aside_hit_and_miss (now : Nat) (st : RedisState) (db : Db)
    (product_id : Int) (p q : ProductModel) (exp : Option Nat) :
    (lookupLive now st ("product:" ++ intRepr product_id) = some ⟨productJson q, exp⟩ →
      (get_product_cache_aside now st db product_id).loaderCalls = 0 ∧
      (get_product_cache_aside now st db product_id).hit = some true ∧
      (get_product_cache_aside now st db product_id).product = some (productJson q) ∧
      (get_product_cache_aside now st db product_id).cache = st) ∧
    ((cache_get now st ("product:" ++ intRepr product_id)).truthy = false →
      dbFind db product_id = some p →
      (get_product_cache_aside now st db product_id).loaderCalls = 1 ∧
      (get_product_cache_aside now st db product_id).hit = some false ∧
      (get_product_cache_aside now st db product_id).product = some (productJson p) ∧
      lookupLive now (get_product_cache_aside now st db product_id).cache
        ("product:" ++ intRepr product_id) = some ⟨productJson p, some (now + 3600)⟩) ∧
    ((cache_get now st ("product:" ++ intRepr product_id)).truthy = false →
      dbFind db product_id = some p →
      (get_product_cache_aside now
          (get_product_cache_aside now st db product_id).cache db product_id).loaderCalls = 0 ∧
      (get_product_cache_aside now
          (get_product_cache_aside now st db product_id).cache db product_id).hit = some true ∧
      (get_product_cache_aside now
          (get_product_cache_aside now st db product_id).cache db product_id).product
        = some (productJson p)) := by
  have hb : ∀ (st' : RedisState),
      (cache_get now st' ("product:" ++ intRepr product_id)).truthy = false →
      dbFind db product_id = some p →
      (get_product_cache_aside now st' db product_id).loaderCalls = 1 ∧
      (get_product_cache_aside now st' db product_id).hit = some false ∧
      (get_product_cache_aside now st' db product_id).product = some (productJson p) ∧
      lookupLive now (get_product_cache_aside now st' db product_id).cache
        ("product:" ++ intRepr product_id) = some ⟨productJson p, some (now + 3600)⟩ := by
    intro st' hmiss hdb
    have hset := cache_set_pos now st' ("product:" ++ intRepr product_id)
      (productJson p) 3600 (by decide)
    have hlook := lookupLive_set_same now st' ("product:" ++ intRepr product_id)
      (productJson p) 3600 (by decide)
    refine ⟨?_, ?_, ?_, ?_⟩
    · simp [get_product_cache_aside, hmiss, hdb, hset]
    · simp [get_product_cache_aside, hmiss, hdb, hset]
    · simp [get_product_cache_aside, hmiss, hdb, hset]
    · simp only [get_product_cache_aside, hmiss, hdb, hset]
      simpa [hset] using hlook
  have ha : ∀ (st' : RedisState) (q' : ProductModel) (exp' : Option Nat),
      lookupLive now st' ("product:" ++ intRepr product_id) = some ⟨productJson q', exp'⟩ →
      (get_product_cache_aside now st' db product_id).loaderCalls = 0 ∧
      (get_product_cache_aside now st' db product_id).hit = some true ∧
      (get_product_cache_aside now st' db product_id).product = some (productJson q') ∧
      (get_product_cache_aside now st' db product_id).cache = st' := by
    intro st' q' exp' hhit
    have hg : cache_get now st' ("product:" ++ intRepr product_id) = productJson q' :=
      cache_get_of_lookupLive now st' _ _ hhit
    refine ⟨?_, ?_, ?_, ?_⟩ <;> simp [get_product_cache_aside, hg, productJson_truthy]
  refine ⟨ha st q exp, hb st, ?_⟩
  intro hmiss hdb
  obtain ⟨-, -, -, hlive⟩ := hb st hmiss hdb
  obtain ⟨h1, h2, h3, -⟩ := ha _ p (some (now + 3600)) hlive
  exact ⟨h1, h2, h3⟩

theorem cache_aside_hit_and_miss_witness :
    ((get_product_cache_aside 0
        [("product:" ++ intRepr 1,
          ⟨productJson ⟨1, Json.str "W", Json.str "d", Json.num 5, Json.str "c"⟩, some 100⟩)]
        [⟨1, Json.str "W", Json.str "d", Json.num 5, Json.str "c"⟩] 1).loaderCalls = 0 ∧
      (get_product_cache_aside 0
        [("product:" ++ intRepr 1,
          ⟨productJson ⟨1, Json.str "W", Json.str "d", Json.num 5, Json.str "c"⟩, some 100⟩)]
        [⟨1, Json.str "W", Json.str "d", Json.num 5, Json.str "c"⟩] 1).hit = some true) ∧
    ((get_product_cache_aside 0 []
        [⟨1, Json.str "W", Json.str "d", Json.num 5, Json.str "c"⟩] 1).loaderCalls = 1 ∧
      (get_product_cache_aside 0 []
        [⟨1, Json.str "W", Json.str "d", Json.num 5, Json.str "c"⟩] 1).hit = some false) ∧
    ((get_product_cache_aside 0
        (get_product_cache_aside 0 []
          [⟨1, Json.str "W", Json.str "d", Json.num 5, Json.str "c"⟩] 1).cache
        [⟨1, Json.str "W", Json.str "d", Json.num 5, Json.str "c"⟩] 1).loaderCalls = 0 ∧
      (get_product_cache_aside 0
        (get_product_cache_aside 0 []
          [⟨1, Json.str "W", Json.str "d", Json.num 5, Json.str "c"⟩] 1).cache
        [⟨1, Json.str "W", Json.str "d", Json.num 5, Json.str "c"⟩] 1).hit = some true) := by
  have hhit := (cache_aside_hit_and_miss 0
    [("product:" ++ intRepr 1,
      ⟨productJson ⟨1, Json.str "W", Json.str "d", Json.num 5, Json.str "c"⟩, some 100⟩)]
    [⟨1, Json.str "W", Json.str "d", Json.num 5, Json.str "c"⟩] 1
    ⟨1, Json.str "W", Json.str "d", Json.num 5, Json.str "c"⟩
    ⟨1, Json.str "W", Json.str "d", Json.num 5, Json.str "c"⟩ (some 100)).1
    (by simp [lookupLive, lookupEntry, entryLive])
  have hmiss := cache_aside_hit_and_miss 0 []
    [⟨1, Json.str "W", Json.str "d", Json.num 5, Json.str "c"⟩] 1
    ⟨1, Json.str "W", Json.str "d", Json.num 5, Json.str "c"⟩
    ⟨1, Json.str "W", Json.str "d", Json.num 5, Json.str "c"⟩ none
  obtain ⟨hm1, hm2, -, -⟩ := hmiss.2.1 rfl rfl
  obtain ⟨hs1, hs2, -⟩ := hmiss.2.2 rfl rfl
  exact ⟨⟨hhit.1, hhit.2.1⟩, ⟨hm1, hm2⟩, hs1, hs2⟩

/-- Invalidating `products:list:*` never touches a single-product key. -/
theorem lookupEntry_delete_pattern_product_key (now : Nat) (st : RedisState) (s : String) :
    lookupEntry (cache_delete_pattern now st "products:list:*").2 ("product:" ++ s)
      = lookupEntry st ("product:" ++ s) := by
  show lookupEntry ((scan_iter now st _).foldl _ st) _ = _
  rw [foldl_del_eq_filter]
  apply lookupEntry_filter_keep
  intro e
  have hnotin : ("product:" ++ s) ∉ scan_iter now st "products:list:*" := by
    intro hin
    have hm := keyMatch_of_mem_scan_iter now st _ _ hin
    rw [keyMatch_products_list_product_key] at hm
    cases hm
  simpa using hnotin

/-- **C2** (confirmed): in both write-through routes the database write comes
first; if it fails the exception propagates (`Err.writeError`), the cache and
the database are left exactly as they were — so a later `get` sees the prior
content, never the unpersisted value — and only when the writer succeeds is
the cache updated via `cache_set`, which then holds the newly written product
under its key with a one-hour TTL. -/
theorem write_through_writer_failure_leaves_cache (now : Nat) (st : RedisState)
    (db : Db) (product : ProductCreate) (product_id : Int)
    (updates : List (String × Json)) (p : ProductModel) :
    (create_product_write_through now st db product false).err = some Err.writeError ∧
    (create_product_write_through now st db product false).cache = st ∧
    (create_product_write_through now st db product false).db = db ∧
    (∀ k, cache_get now (create_product_write_through now st db product false).cache k
      = cache_get now st k) ∧
    (dbFind db product_id = some p →
      (update_product_write_through now st db product_id updates false).err
        = some Err.writeError ∧
      (update_product_write_through now st db product_id updates false).cache = st ∧
      (update_product_write_through now st db product_id updates false).db = db) ∧
    ((create_product_write_through now st db product true).err = none ∧
      lookupLive now (create_product_write_through now st db product true).cache
        ("product:" ++ intRepr (nextId db))
        = some ⟨productJson ⟨nextId db, product.name, product.description,
            product.price, product.category⟩, some (now + 3600)⟩) ∧
    (dbFind db product_id = some p →
      (update_product_write_through now st db product_id updates true).err = none ∧
      lookupLive now (update_product_write_through now st db product_id updates true).cache
        ("product:" ++ intRepr product_id)
        = some ⟨productJson (applyUpdates p updates), some (now + 3600)⟩) := by
  have hset : ∀ (k : String) (v : Json),
      cache_set now st k v 3600 = (none, insertEntry st k ⟨v, some (now + 3600)⟩) := by
    intro k v
    rw [cache_set_pos now st k v 3600 (by decide)]
    rfl
  refine ⟨rfl, rfl, rfl, fun k => rfl, ?_, ?_, ?_⟩
  · intro hdb
    refine ⟨?_, ?_, ?_⟩ <;> simp [update_product_write_through, hdb]
  · constructor
    · simp [create_product_write_through, hset]
    · have hlook := lookupLive_set_same now st ("product:" ++ intRepr (nextId db))
        (productJson ⟨nextId db, product.name, product.description,
          product.price, product.category⟩) 3600 (by decide)
      simp only [create_product_write_through, Bool.true_eq_false, if_false, hset]
      simp only [lookupLive, lookupEntry_delete_pattern_product_key]
      rw [hset] at hlook
      simpa [lookupLive] using hlook
  · intro hdb
    have hlook := lookupLive_set_same now st ("product:" ++ intRepr product_id)
      (productJson (applyUpdates p updates)) 3600 (by decide)
    rw [hset] at hlook
    constructor
    · simp [update_product_write_through, hdb, hset]
    · simpa [update_product_write_through, hdb, hset] using hlook

theorem write_through_writer_failure_leaves_cache_witness :
    (create_product_write_through 0 [] []
      ⟨Json.str "W", Json.str "d", Json.num 5, Json.str "c"⟩ false).err
      = some Err.writeError ∧
    (create_product_write_through 0 [] []
      ⟨Json.str "W", Json.str "d", Json.num 5, Json.str "c"⟩ false).cache = [] ∧
    (update_product_write_through 0 []
      [⟨1, Json.str "W", Json.str "d", Json.num 5, Json.str "c"⟩]
      1 [("price", Json.num 9)] false).err = some Err.writeError ∧
    (update_product_write_through 0 []
      [⟨1, Json.str "W", Json.str "d", Json.num 5, Json.str "c"⟩]
      1 [("price", Json.num 9)] false).cache = [] := by
  have h := write_through_writer_failure_leaves_cache 0 [] []
    ⟨Json.str "W", Json.str "d", Json.num 5, Json.str "c"⟩ 1 [("price", Json.num 9)]
    ⟨1, Json.str "W", Json.str "d", Json.num 5, Json.str "c"⟩
  have h' := write_through_writer_failure_leaves_cache 0 []
    [⟨1, Json.str "W", Json.str "d", Json.num 5, Json.str "c"⟩]
    ⟨Json.str "W", Json.str "d", Json.num 5, Json.str "c"⟩ 1 [("price", Json.num 9)]
    ⟨1, Json.str "W", Json.str "d", Json.num 5, Json.str "c"⟩
  obtain ⟨hu1, hu2, -⟩ := h'.2.2.2.2.1 rfl
  exact ⟨h.1, h.2.1, hu1, hu2⟩

/-- **C10** (confirmed): a successful write-through *update* of an existing
product touches only that product's own cache key; every key matching
`products:list:*` is left unchanged in the store (only the create and delete
routes invalidate list caches), so a cached product list keeps serving its
pre-update data until its TTL expires. -/
theorem update_does_not_invalidate_list_caches (now : Nat) (st : RedisState) (db : Db)
    (product_id : Int) (updates : List (String × Json)) (p : ProductModel)
    (hdb : dbFind db product_id = some p) :
    (update_product_write_through now st db product_id updates true).err = none ∧
    ∀ k, keyMatch "products:list:*" k = true →
      lookupEntry (update_product_write_through now st db product_id updates true).cache k
        = lookupEntry st k ∧
      cache_get now (update_product_write_through now st db product_id updates true).cache k
        = cache_get now st k := by
  have hset := cache_set_pos now st ("product:" ++ intRepr product_id)
    (productJson (applyUpdates p updates)) 3600 (by decide)
  constructor
  · simp [update_product_write_through, hdb, hset]
  · intro k hk
    have hne : k ≠ "product:" ++ intRepr product_id := by
      intro he
      rw [he, keyMatch_products_list_product_key] at hk
      cases hk
    have hl : lookupEntry
        (update_product_write_through now st db product_id updates true).cache k
        = lookupEntry st k := by
      simp only [update_product_write_through, hdb, hset]
      exact lookupEntry_insertEntry_ne st _ k _ hne
    exact ⟨hl, by simp [cache_get, redis_get, lookupLive, hl]⟩

theorem update_does_not_invalidate_list_caches_witness :
    (update_product_write_through 0
      [("products:list:all:page1:limit10", ⟨Json.arr [], some 100⟩)]
      [⟨1, Json.str "W", Json.str "d", Json.num 5, Json.str "c"⟩]
      1 [("price", Json.num 9)] true).err = none ∧
    lookupEntry (update_product_write_through 0
      [("products:list:all:page1:limit10", ⟨Json.arr [], some 100⟩)]
      [⟨1, Json.str "W", Json.str "d", Json.num 5, Json.str "c"⟩]
      1 [("price", Json.num 9)] true).cache "products:list:all:page1:limit10"
      = lookupEntry [("products:list:all:page1:limit10", ⟨Json.arr [], some 100⟩)]
          "products:list:all:page1:limit10" := by
  have h := update_does_not_invalidate_list_caches 0
    [("products:list:all:page1:limit10", ⟨Json.arr [], some 100⟩)]
    [⟨1, Json.str "W", Json.str "d", Json.num 5, Json.str "c"⟩]
    1 [("price", Json.num 9)]
    ⟨1, Json.str "W", Json.str "d", Json.num 5, Json.str "c"⟩ rfl
  exact ⟨h.1, (h.2 "products:list:all:page1:limit10" (by simp [keyMatch, globMatch])).1⟩

/-- **C6** (confirmed): `increment(key, window_ttl)` on an absent (or
expired) counter initializes it to 0, increments to 1, returns 1, and sets
the expiry to `now + window_ttl`; on a live counter `n ≥ 1` it returns
`n + 1` and leaves the stored expiry exactly as it was — the window TTL is
set only on the first increment of the window, never refreshed. -/
theorem increment_window_semantics (now : Nat) (st : RedisState) (k : String)
    (ttl : Nat) :
    (lookupLive now st k = none →
      ∃ st', increment now st k ttl = .ok (1, st') ∧
        lookupEntry st' k = some ⟨Json.num 1, some (now + ttl)⟩) ∧
    (∀ (n : Int) (exp : Option Nat),
      lookupLive now st k = some ⟨Json.num n, exp⟩ → 1 ≤ n →
      ∃ st', increment now st k ttl = .ok (n + 1, st') ∧
        lookupEntry st' k = some ⟨Json.num (n + 1), exp⟩) := by
  constructor
  · intro h
    have h1 : lookupLive now (insertEntry st k ⟨Json.num 1, none⟩) k
        = some ⟨Json.num 1, none⟩ := by
      simp [lookupLive, lookupEntry_insertEntry_self, entryLive]
    have hstep : increment now st k ttl
        = .ok (1, insertEntry (insertEntry st k ⟨Json.num 1, none⟩) k
            ⟨Json.num 1, some (now + ttl)⟩) := by
      simp [increment, incr, h, redis_expire, h1]
    exact ⟨_, hstep, lookupEntry_insertEntry_self _ _ _⟩
  · intro n exp hl hn
    have hne : ¬(n + 1 = 1) := by omega
    have hstep : increment now st k ttl
        = .ok (n + 1, insertEntry st k ⟨Json.num (n + 1), exp⟩) := by
      simp [increment, incr, hl, hne]
    exact ⟨_, hstep, lookupEntry_insertEntry_self _ _ _⟩

theorem increment_window_semantics_witness :
    (∃ st', increment 0 [] "r" 60 = .ok (1, st') ∧
      lookupEntry st' "r" = some ⟨Json.num 1, some 60⟩) ∧
    (∃ st', increment 30 [("r", ⟨Json.num 1, some 60⟩)] "r" 60 = .ok (2, st') ∧
      lookupEntry st' "r" = some ⟨Json.num 2, some 60⟩) :=
  ⟨(increment_window_semantics 0 [] "r" 60).1 rfl,
    (increment_window_semantics 30 [("r", ⟨Json.num 1, some 60⟩)] "r" 60).2
      1 (some 60) (by simp [lookupLive, lookupEntry, entryLive]) (by decide)⟩

/-- **C5** (confirmed): calling the (spec-modelled, parametric-limit) `allow`
six times in immediate succession from fresh counter state with `limit = 5`
yields `allowed = true` with `remaining` 4, 3, 2, 1, 0 for the first five
calls and `allowed = false` for the sixth; and the source's
`rate_limited_search` realizes `allowed = (count <= limit)` with its
hard-coded `RATE_LIMIT = 10`: it succeeds (no 429) exactly when the
post-increment count is at most the limit, reporting
`remaining = RATE_LIMIT - count` on allowed requests. -/
theorem rate_limiter_allow_semantics :
    (allowCalls 0 "ip1" 5 60 6 []).1
      = [(true, 4), (true, 3), (true, 2), (true, 1), (true, 0), (false, -1)] ∧
    (∀ (now : Nat) (st : RedisState) (ip : String) (n : Int) (st' : RedisState),
      increment now st ("rate:" ++ ip ++ ":" ++ natRepr (now / 60)) 60 = .ok (n, st') →
      ((rate_limited_search now st ip).err = none ↔ n ≤ RATE_LIMIT) ∧
      (rate_limited_search now st ip).count = some n ∧
      (n ≤ RATE_LIMIT →
        (rate_limited_search now st ip).remaining = some (RATE_LIMIT - n))) := by
  constructor
  · decide
  · intro now st ip n st' h
    have hres : rate_limited_search now st ip
        = if RATE_LIMIT < n then
            { err := some .tooManyRequests, count := some n, remaining := none, cache := st' }
          else
            { err := none, count := some n,
              remaining := some (RATE_LIMIT - n), cache := st' } := by
      simp only [rate_limited_search, h]
    refine ⟨?_, ?_, ?_⟩
    · rw [hres]
      by_cases hc : RATE_LIMIT < n
      · rw [if_pos hc]
        simp only [RATE_LIMIT] at hc
        simp [RATE_LIMIT]
        omega
      · rw [if_neg hc]
        simp only [RATE_LIMIT] at hc
        simp [RATE_LIMIT]
        omega
    · rw [hres]
      split_ifs <;> rfl
    · intro hn
      have hc : ¬RATE_LIMIT < n := by
        simp only [RATE_LIMIT] at hn ⊢
        omega
      rw [hres, if_neg hc]

theorem rate_limiter_allow_semantics_witness :
    (allowCalls 0 "ip1" 5 60 6 []).1
      = [(true, 4), (true, 3), (true, 2), (true, 1), (true, 0), (false, -1)] ∧
    ((rate_limited_search 0 [] "a").err = none ↔ (1 : Int) ≤ RATE_LIMIT) ∧
    (rate_limited_search 0 [] "a").count = some 1 :=
  ⟨rate_limiter_allow_semantics.1,
    (rate_limiter_allow_semantics.2 0 [] "a" 1
      [("rate:" ++ "a" ++ ":" ++ natRepr (0 / 60), ⟨Json.num 1, some 60⟩)]
      (by simp [increment, incr, redis_expire, lookupLive, lookupEntry,
        entryLive, insertEntry])).1,
    (rate_limiter_allow_semantics.2 0 [] "a" 1
      [("rate:" ++ "a" ++ ":" ++ natRepr (0 / 60), ⟨Json.num 1, some 60⟩)]
      (by simp [increment, incr, redis_expire, lookupLive, lookupEntry,
        entryLive, insertEntry])).2.1⟩

end Caching
